import Mathlib

/-!
Verification of `src/weatherApi/weatherApp.py` (console weather application).

The Python program is shallowly embedded:
* JSON documents become the inductive type `Json` (JSON numbers are modelled
  as integers, which covers all fields the claims touch: `cod`, timestamps,
  humidity; string conversion of Python values is modelled by `pyStr`).
* Printing is modelled by returning the list of strings passed to `print`,
  in order; prompts written by `input()` are not part of that list.
* A Python exception escaping a function is modelled by a `Bool` flag
  (`true` = an uncaught exception was raised) or by `Option`.
* The network is an oracle `net : String → String → HttpOutcome` giving the
  outcome of the single `requests.get` performed by `fetch_weather`.
* The local timezone used by `datetime.fromtimestamp` is fixed to UTC, as
  the specification instructs for determinism.
-/

/-- A JSON value as produced by `response.json()`.  Numbers are modelled as
integers; `null` is Python `None`. -/
inductive Json where
  | null : Json
  | bool : Bool → Json
  | int : Int → Json
  | str : String → Json
  | arr : List Json → Json
  | obj : List (String × Json) → Json

/-- Decimal digit string of a natural number, most significant digit first:
the model of Python `str()` on a non-negative integer. -/
def natStr (n : Nat) : String :=
  if n = 0 then "0" else ((Nat.digits 10 n).map Nat.digitChar).reverse.asString

/-- Python `str()` on an arbitrary integer (a leading minus sign for
negative values). -/
def intStr : Int → String
  | .ofNat m => natStr m
  | .negSucc m => "-" ++ natStr (m + 1)

/-- Python `repr()` of a JSON value, used for elements inside containers.
String escaping inside quotes is not modelled (no claim depends on it). -/
def pyRepr : Json → String
  | .null => "None"
  | .bool true => "True"
  | .bool false => "False"
  | .int n => intStr n
  | .str s => "\x27" ++ s ++ "\x27"
  | .arr xs => "[" ++ String.intercalate ", " (xs.attach.map fun ⟨x, hx⟩ => pyRepr x) ++ "]"
  | .obj kvs =>
      "\x7b" ++ String.intercalate ", "
        (kvs.attach.map fun ⟨(k, v), hkv⟩ => "\x27" ++ k ++ "\x27: " ++ pyRepr v) ++ "\x7d"
decreasing_by
  · have := List.sizeOf_lt_of_mem hx
    simp only [Json.arr.sizeOf_spec]
    omega
  · have := List.sizeOf_lt_of_mem hkv
    simp only [Json.obj.sizeOf_spec]
    simp at this
    omega

/-- Python `str()` of a JSON value (`str` on a string is the string itself;
other values print as their `repr`). -/
def pyStr : Json → String
  | .str s => s
  | j => pyRepr j

/-- Python `str()` applied to the result of `dict.get(key)`: absent keys give
`None`, which prints as `"None"`. -/
def pyStrOpt : Option Json → String
  | none => "None"
  | some j => pyStr j

/-- Python truthiness of a JSON value (`bool(x)`). -/
def pyTruthy : Json → Bool
  | .null => false
  | .bool b => b
  | .int n => n != 0
  | .str s => !s.data.isEmpty
  | .arr xs => !xs.isEmpty
  | .obj kvs => !kvs.isEmpty

/-- Truthiness of a `dict.get(key)` result (absent key gives `None`, falsy). -/
def pyTruthyOpt : Option Json → Bool
  | none => false
  | some j => pyTruthy j

/-- ASCII whitespace stripped by Python `str.strip()`. -/
def pySpace (c : Char) : Bool :=
  c == ' ' || c == '\t' || c == '\n' || c == '\r' || c == '\x0b' || c == '\x0c'

/-- Python `str.strip()` (ASCII whitespace; the inputs the program reads are
ASCII command words). -/
def pyStrip (s : String) : String :=
  ((s.data.dropWhile pySpace).reverse.dropWhile pySpace).reverse.asString

/-- Python `str.lower()` on the ASCII range. -/
def pyLower (s : String) : String :=
  (s.data.map Char.toLower).asString

/-- Zero padding to two digits, as in `strftime` `%I` and `%M`. -/
def pad2 (n : Nat) : String :=
  if n < 10 then "0" ++ natStr n else natStr n

/-- `WeatherDisplay.format_unix_time`: `datetime.fromtimestamp(ts)` with the
reference timezone fixed to UTC, rendered with `strftime("%I:%M %p")`
(12-hour clock, zero-padded, with AM/PM). -/
def format_unix_time (timestamp : Int) : String :=
  let sod := (timestamp % 86400).toNat
  let h := sod / 3600
  let m := sod % 3600 / 60
  let h12 := if h % 12 = 0 then 12 else h % 12
  pad2 h12 ++ ":" ++ pad2 m ++ " " ++ (if h < 12 then "AM" else "PM")

/-- `data.get(key, default)` on a parsed JSON object: association-list lookup
with a default value. -/
def dictGetD (kvs : List (String × Json)) (key : String) (dflt : Json) : Json :=
  (List.lookup key kvs).getD dflt

/-- `data.get(key, dict())` followed by use of the result as a dictionary:
`some` entry list when the key is absent (the empty default) or maps to an
object, `none` when the value is not a dictionary (attribute access raises). -/
def getObjD (kvs : List (String × Json)) (key : String) :
    Option (List (String × Json)) :=
  match List.lookup key kvs with
  | none => some []
  | some (.obj o) => some o
  | some _ => none

/-- The integer `datetime.fromtimestamp` accepts (a Python boolean is an
integer; any other non-numeric value raises `TypeError`). -/
def toTimestamp : Json → Option Int
  | .int n => some n
  | .bool b => some (if b then 1 else 0)
  | _ => none

/-- One conditional sunrise/sunset print in `show_weather`: the lines
emitted and whether `format_unix_time` raised. -/
def timeLine (label : String) (v : Option Json) : List String × Bool :=
  if pyTruthyOpt v then
    match v with
    | some j =>
      match toTimestamp j with
      | some t => ([label ++ format_unix_time t], false)
      | none => ([], true)
    | none => ([], true)
  else ([], false)

/-- `WeatherDisplay.show_weather`: the strings printed, in order, and whether
an exception escaped (attribute access on a non-dictionary value, or
`format_unix_time` applied to a non-numeric timestamp).  All field reads
happen before any line after the banner is printed, as in the source. -/
def show_weather (data : Json) (units : String) : List String × Bool :=
  let header := "\n------ WEATHER INFORMATION ------"
  match data with
  | .obj kvs =>
    match getObjD kvs "sys", getObjD kvs "main", getObjD kvs "wind" with
    | some sys0, some main0, some wind0 =>
      let name := dictGetD kvs "name" (.str "Unknown city")
      let country := dictGetD sys0 "country" (.str "N/A")
      let temperature := dictGetD main0 "temp" (.str "No data")
      let humidity := dictGetD main0 "humidity" (.str "No data")
      let wind_speed := dictGetD wind0 "speed" (.str "No data")
      let sunrise := List.lookup "sunrise" sys0
      let sunset := List.lookup "sunset" sys0
      let temperature_unit := if units == "metric" then "°C" else "°F"
      let base := [header,
        "Location: " ++ pyStr name ++ ", " ++ pyStr country,
        "Temperature: " ++ pyStr temperature ++ temperature_unit,
        "Humidity: " ++ pyStr humidity ++ "%",
        "Wind Speed: " ++ pyStr wind_speed ++ " m/s"]
      let sr := timeLine "Sunrise: " sunrise
      if sr.2 then (base, true)
      else
        let ss := timeLine "Sunset:  " sunset
        if ss.2 then (base ++ sr.1, true)
        else (base ++ sr.1 ++ ss.1 ++ ["--------------------------------\n"], false)
    | _, _, _ => ([header], true)
  | _ => ([header], true)

/-- Outcome of the single `requests.get` call inside `fetch_weather`. -/
inductive HttpOutcome where
  | success : Json → HttpOutcome
  | httpError : String → HttpOutcome
  | connectionError : HttpOutcome
  | timeout : HttpOutcome
  | otherError : String → HttpOutcome

/-- `WeatherClient.fetch_weather`: the diagnostics printed and the returned
value — `some` parsed body on success, Python `None` on every handled
failure class. -/
def fetch_weather (o : HttpOutcome) : List String × Option Json :=
  match o with
  | .success body => ([], some body)
  | .httpError err => (["❌ HTTP Error: " ++ err], none)
  | .connectionError => (["❌ Network connection error. Check your internet."], none)
  | .timeout => (["❌ Request timed out."], none)
  | .otherError err => (["❌ General request error: " ++ err], none)

/-- `get_units`: consumes input lines until one maps to a unit system.
Returns the error lines printed, the value returned (`none` models running
out of input, where `input()` raises `EOFError`), and the unconsumed input. -/
def get_units : List String → List String × Option String × List String
  | [] => ([], none, [])
  | line :: rest =>
    let choice := pyLower (pyStrip line)
    if choice == "c" then ([], some "metric", rest)
    else if choice == "f" then ([], some "imperial", rest)
    else
      let r := get_units rest
      ("Invalid option. Please enter C or F." :: r.1, r.2.1, r.2.2)

/-- `get_units` never produces more remaining input than it was given. -/
theorem get_units_rest_length (l : List String) :
    (get_units l).2.2.length ≤ l.length := by
  induction l with
  | nil => simp [get_units]
  | cons x rest ih =>
    by_cases h1 : pyLower (pyStrip x) == "c"
    · simp [get_units, h1]
    · by_cases h2 : pyLower (pyStrip x) == "f"
      · simp [get_units, h1, h2]
      · simp [get_units, h1, h2]
        exact le_trans ih (Nat.le_succ _)

/-- The `while` loop of `main`, driven by the list of input lines: the
strings printed, the fetch calls performed (city and units of each), and
whether an exception escaped (running out of input at a prompt raises
`EOFError`; attribute access on a non-dictionary body raises). -/
def mainLoop (net : String → String → HttpOutcome) :
    List String → List String × List (String × String) × Bool
  | [] => ([], [], true)
  | cityLine :: rest =>
    let city := pyStrip cityLine
    if pyLower city == "exit" then (["Goodbye!"], [], false)
    else
      let g := get_units rest
      match g.2.1 with
      | none => (g.1, [], true)
      | some units =>
        let f := fetch_weather (net city units)
        match f.2 with
        | none =>
          let k := mainLoop net g.2.2
          (g.1 ++ f.1 ++ ["❌ No data returned. Try again.\n"] ++ k.1,
           (city, units) :: k.2.1, k.2.2)
        | some data =>
          match data with
          | .obj kvs =>
            if pyStrOpt (List.lookup "cod" kvs) != "200" then
              let k := mainLoop net g.2.2
              (g.1 ++ f.1 ++
                ["❌ Error: " ++ pyStr (dictGetD kvs "message" (.str "Unknown error")) ++ ".\n"]
                ++ k.1,
               (city, units) :: k.2.1, k.2.2)
            else
              let w := show_weather data units
              if w.2 then (g.1 ++ f.1 ++ w.1, [(city, units)], true)
              else
                let k := mainLoop net g.2.2
                (g.1 ++ f.1 ++ w.1 ++ k.1, (city, units) :: k.2.1, k.2.2)
          | _ => (g.1 ++ f.1, [(city, units)], true)
termination_by l => l.length
decreasing_by
  all_goals
    have := get_units_rest_length rest
    simp only [List.length_cons]
    omega

/-- `main`: takes the API key read at startup (`none` when the environment
variable is absent), the network oracle, and the input lines; returns the
strings printed, the fetch calls performed, and the raised flag. -/
def mainApp (api_key : Option String) (net : String → String → HttpOutcome)
    (inputs : List String) : List String × List (String × String) × Bool :=
  if (match api_key with | none => true | some k => k == "") then
    (["❌ ERROR: API key not found. Add it to your .env file."], [], false)
  else
    let r := mainLoop net inputs
    ("==== Python Weather App ====\n" :: r.1, r.2.1, r.2.2)

/-- The entries of a nested object field as the presenter effectively uses
them: the entries when the field is present as an object, empty otherwise. -/
def effObj (kvs : List (String × Json)) (key : String) : List (String × Json) :=
  match List.lookup key kvs with
  | some (.obj o) => o
  | _ => []

/-- A field that is either absent or an integer. -/
def intOrAbsent : Option Json → Bool
  | none => true
  | some (.int _) => true
  | some _ => false

/-- Well-formedness of a response document for the presenter: the document
is an object, the nested fields the presenter dereferences are objects when
present, and the timestamps are integers when present.  Exactly the
documents on which `show_weather` performs no illegal operation. -/
def wfResponse : Json → Bool
  | .obj kvs =>
    (getObjD kvs "sys").isSome && (getObjD kvs "main").isSome &&
    (getObjD kvs "wind").isSome &&
    intOrAbsent (List.lookup "sunrise" (effObj kvs "sys")) &&
    intOrAbsent (List.lookup "sunset" (effObj kvs "sys"))
  | _ => false

/-! ### Helper lemmas about strings and decimal printing -/

/-- Two appended strings differ when their left parts differ at a common
index. -/
theorem append_ne_append (a s b t : String) (i : Nat) (h1 : i < a.data.length)
    (h2 : i < b.data.length) (h3 : a.data[i]? ≠ b.data[i]?) : a ++ s ≠ b ++ t := by
  intro h
  have hd := congrArg String.data h
  rw [String.data_append, String.data_append] at hd
  have hi := congrArg (fun l => l[i]?) hd
  simp only at hi
  rw [List.getElem?_append_left h1, List.getElem?_append_left h2] at hi
  exact h3 hi

/-- An appended string differs from a plain string that differs at a common
index of the left part. -/
theorem append_ne_const (a s b : String) (i : Nat) (h1 : i < a.data.length)
    (h2 : i < b.data.length) (h3 : a.data[i]? ≠ b.data[i]?) : a ++ s ≠ b := by
  intro h
  have hd := congrArg String.data h
  rw [String.data_append] at hd
  have hi := congrArg (fun l => l[i]?) hd
  simp only at hi
  rw [List.getElem?_append_left h1] at hi
  exact h3 hi

theorem digitChar_inj10 :
    ∀ x, x < 10 → ∀ y, y < 10 → Nat.digitChar x = Nat.digitChar y → x = y := by
  decide

theorem mapDigitChar_inj (l1 : List Nat) (h1 : ∀ x ∈ l1, x < 10) :
    ∀ l2, (∀ x ∈ l2, x < 10) → l1.map Nat.digitChar = l2.map Nat.digitChar → l1 = l2 := by
  induction l1 with
  | nil =>
    intro l2 _ h
    cases l2 with
    | nil => rfl
    | cons b bs => simp at h
  | cons a as ih =>
    intro l2 h2 h
    cases l2 with
    | nil => simp at h
    | cons b bs =>
      simp only [List.map_cons, List.cons.injEq] at h
      have hab : a = b :=
        digitChar_inj10 a (h1 a (by simp)) b (h2 b (by simp)) h.1
      subst hab
      rw [ih (fun x hx => h1 x (List.mem_cons_of_mem _ hx)) bs
        (fun x hx => h2 x (List.mem_cons_of_mem _ hx)) h.2]

theorem natStr_data_of_ne {n : Nat} (hn : n ≠ 0) :
    (natStr n).data = ((Nat.digits 10 n).map Nat.digitChar).reverse := by
  unfold natStr
  rw [if_neg hn]
  rfl

theorem natStr_ne_zeroStr {n : Nat} (hn : n ≠ 0) : natStr n ≠ "0" := by
  intro h
  have hd := congrArg String.data h
  rw [natStr_data_of_ne hn] at hd
  have h0 : ("0" : String).data = ['0'] := rfl
  rw [h0] at hd
  have hrev := congrArg List.reverse hd
  simp only [List.reverse_reverse] at hrev
  have hone : (Nat.digits 10 n).map Nat.digitChar = [0].map Nat.digitChar := by
    simpa using hrev
  have hdig := mapDigitChar_inj _ (fun x hx => Nat.digits_lt_base (by norm_num) hx)
    [0] (by simp) hone
  have h2 := congrArg (Nat.ofDigits 10) hdig
  rw [Nat.ofDigits_digits] at h2
  exact hn (by simpa [Nat.ofDigits] using h2)

/-- The decimal printer is injective: distinct naturals print differently. -/
theorem natStr_inj (m n : Nat) (h : natStr m = natStr n) : m = n := by
  by_cases hm : m = 0 <;> by_cases hn : n = 0
  · omega
  · exfalso
    subst hm
    exact natStr_ne_zeroStr hn h.symm
  · exfalso
    subst hn
    exact natStr_ne_zeroStr hm h
  · have hd := congrArg String.data h
    rw [natStr_data_of_ne hm, natStr_data_of_ne hn] at hd
    have hmap := List.reverse_injective hd
    have hdig := mapDigitChar_inj (Nat.digits 10 m)
      (fun x hx => Nat.digits_lt_base (by norm_num) hx) (Nat.digits 10 n)
      (fun x hx => Nat.digits_lt_base (by norm_num) hx) hmap
    have h2 := congrArg (Nat.ofDigits 10) hdig
    rw [Nat.ofDigits_digits, Nat.ofDigits_digits] at h2
    exact_mod_cast h2

theorem natStr_two_hundred : natStr 200 = "200" := by
  simp [natStr]
  decide

/-- Python prints an integer as `"200"` exactly for the integer `200`. -/
theorem intStr_eq_200 (i : Int) : intStr i = "200" ↔ i = 200 := by
  constructor
  · intro h
    cases i with
    | ofNat m =>
      have : natStr m = natStr 200 := by
        rw [natStr_two_hundred]
        exact h
      rw [natStr_inj m 200 this]
      rfl
    | negSucc m =>
      exfalso
      revert h
      simp only [intStr]
      apply append_ne_const "-" (natStr (m + 1)) "200" 0 (by decide) (by decide)
      decide
  · intro h
    subst h
    simpa [intStr] using natStr_two_hundred

theorem pyStr_arr_ne (xs : List Json) : pyStr (.arr xs) ≠ "200" := by
  simp only [pyStr, pyRepr]
  rw [String.append_assoc]
  apply append_ne_const "[" _ "200" 0 (by decide) (by decide)
  decide

theorem pyStr_obj_ne (kvs : List (String × Json)) : pyStr (.obj kvs) ≠ "200" := by
  simp only [pyStr, pyRepr]
  rw [String.append_assoc]
  apply append_ne_const "\x7b" _ "200" 0 (by decide) (by decide)
  decide

/-- Python prints a JSON value as the string `"200"` exactly for the integer
`200` and the string `"200"`. -/
theorem pyStr_eq_200 (j : Json) : pyStr j = "200" ↔ j = .int 200 ∨ j = .str "200" := by
  cases j with
  | null =>
    simp only [pyStr, pyRepr]
    constructor
    · intro h; exact absurd h (by decide)
    · rintro (h | h) <;> exact Json.noConfusion h
  | bool b =>
    constructor
    · intro h
      exfalso
      cases b <;> simp only [pyStr, pyRepr] at h <;> exact absurd h (by decide)
    · rintro (h | h) <;> exact Json.noConfusion h
  | int n =>
    simp only [pyStr]
    rw [show pyRepr (.int n) = intStr n by simp [pyRepr]]
    rw [intStr_eq_200]
    constructor
    · intro h; left; rw [h]
    · rintro (h | h)
      · cases h; rfl
      · exact Json.noConfusion h
  | str s =>
    simp only [pyStr]
    constructor
    · intro h; right; rw [h]
    · rintro (h | h)
      · exact Json.noConfusion h
      · cases h; rfl
  | arr xs =>
    constructor
    · intro h; exact absurd h (pyStr_arr_ne xs)
    · rintro (h | h) <;> exact Json.noConfusion h
  | obj kvs =>
    constructor
    · intro h; exact absurd h (pyStr_obj_ne kvs)
    · rintro (h | h) <;> exact Json.noConfusion h

/-! ### Characterization of the presenter on well-formed documents -/

theorem getObjD_of_isSome {kvs : List (String × Json)} {key : String}
    (h : (getObjD kvs key).isSome = true) :
    getObjD kvs key = some (effObj kvs key) := by
  unfold getObjD effObj
  unfold getObjD at h
  cases hk : List.lookup key kvs with
  | none => rfl
  | some j =>
    cases j <;> simp [hk] at h ⊢

theorem timeLine_not_raised {label : String} {v : Option Json}
    (h : intOrAbsent v = true) : (timeLine label v).2 = false := by
  cases v with
  | none => simp [timeLine, pyTruthyOpt]
  | some j =>
    cases j with
    | int n =>
      by_cases ht : pyTruthy (.int n) = true
      · simp [timeLine, pyTruthyOpt, ht, toTimestamp]
      · simp [timeLine, pyTruthyOpt, ht]
    | null => simp [intOrAbsent] at h
    | bool b => simp [intOrAbsent] at h
    | str s => simp [intOrAbsent] at h
    | arr xs => simp [intOrAbsent] at h
    | obj kvs => simp [intOrAbsent] at h

theorem show_weather_wf (kvs : List (String × Json)) (units : String)
    (h : wfResponse (.obj kvs) = true) :
    show_weather (.obj kvs) units =
      (["\n------ WEATHER INFORMATION ------",
        "Location: " ++ pyStr (dictGetD kvs "name" (.str "Unknown city")) ++ ", "
          ++ pyStr (dictGetD (effObj kvs "sys") "country" (.str "N/A")),
        "Temperature: " ++ pyStr (dictGetD (effObj kvs "main") "temp" (.str "No data"))
          ++ (if units == "metric" then "°C" else "°F"),
        "Humidity: " ++ pyStr (dictGetD (effObj kvs "main") "humidity" (.str "No data")) ++ "%",
        "Wind Speed: " ++ pyStr (dictGetD (effObj kvs "wind") "speed" (.str "No data")) ++ " m/s"]
        ++ (timeLine "Sunrise: " (List.lookup "sunrise" (effObj kvs "sys"))).1
        ++ (timeLine "Sunset:  " (List.lookup "sunset" (effObj kvs "sys"))).1
        ++ ["--------------------------------\n"], false) := by
  unfold wfResponse at h
  simp only [Bool.and_eq_true] at h
  obtain ⟨⟨⟨⟨h1, h2⟩, h3⟩, h4⟩, h5⟩ := h
  have e1 := getObjD_of_isSome h1
  have e2 := getObjD_of_isSome h2
  have e3 := getObjD_of_isSome h3
  have t1 := @timeLine_not_raised "Sunrise: " _ h4
  have t2 := @timeLine_not_raised "Sunset:  " _ h5
  simp [show_weather, e1, e2, e3, t1, t2]

/-- A character of the left part survives appending on the right. -/
theorem getI_append (a b : String) (i : Nat) (c : Char)
    (h : a.data[i]? = some c) : (a ++ b).data[i]? = some c := by
  have hlt : i < a.data.length := by
    by_contra hge
    rw [List.getElem?_eq_none (by omega)] at h
    exact Option.noConfusion h
  rw [String.data_append, List.getElem?_append_left hlt]
  exact h

/-- Strings differing at one character index are different. -/
theorem ne_of_getI (x y : String) (i : Nat) (c d : Char)
    (hx : x.data[i]? = some c) (hy : y.data[i]? = some d) (hcd : c ≠ d) :
    x ≠ y := by
  intro h
  rw [h] at hx
  rw [hx] at hy
  exact hcd (Option.some.injEq c d ▸ hy ▸ rfl)

/-- The lines a `timeLine` can emit: nothing, or one formatted line. -/
theorem timeLine_fst_cases (label : String) (v : Option Json) :
    (timeLine label v).1 = [] ∨
    ∃ t, (timeLine label v).1 = [label ++ format_unix_time t] := by
  unfold timeLine
  by_cases ht : pyTruthyOpt v = true
  · rw [if_pos ht]
    cases v with
    | none => left; rfl
    | some j =>
      cases hts : toTimestamp j with
      | none => left; simp [hts]
      | some t => right; exact ⟨t, by simp [hts]⟩
  · rw [if_neg ht]
    left
    rfl

/-- When sunrise is present and truthy with integer value `t`, the sunrise
part is exactly one line. -/
theorem timeLine_int (label : String) (t : Int) (ht : t ≠ 0) :
    timeLine label (some (.int t)) = ([label ++ format_unix_time t], false) := by
  simp [timeLine, pyTruthyOpt, pyTruthy, toTimestamp, ht]

/-- When the field is absent or falsy the timeLine emits nothing. -/
theorem timeLine_falsy (label : String) (v : Option Json)
    (h : pyTruthyOpt v = false) : timeLine label v = ([], false) := by
  unfold timeLine
  rw [h]
  simp

/-- Whatever the document, the presenter output is either just the banner
(an exception was raised during field reads) or starts with the five fixed
lines followed by some tail. -/
theorem show_weather_shape (data : Json) (units : String) :
    (show_weather data units).1 = ["\n------ WEATHER INFORMATION ------"] ∨
    ∃ kvs sys0 main0 wind0 tail, data = .obj kvs ∧
      getObjD kvs "sys" = some sys0 ∧ getObjD kvs "main" = some main0 ∧
      getObjD kvs "wind" = some wind0 ∧
      (show_weather data units).1 =
        ["\n------ WEATHER INFORMATION ------",
         "Location: " ++ pyStr (dictGetD kvs "name" (.str "Unknown city")) ++ ", "
           ++ pyStr (dictGetD sys0 "country" (.str "N/A")),
         "Temperature: " ++ pyStr (dictGetD main0 "temp" (.str "No data"))
           ++ (if units == "metric" then "°C" else "°F"),
         "Humidity: " ++ pyStr (dictGetD main0 "humidity" (.str "No data")) ++ "%",
         "Wind Speed: " ++ pyStr (dictGetD wind0 "speed" (.str "No data")) ++ " m/s"]
        ++ tail := by
  cases data with
  | obj kvs =>
    cases h1 : getObjD kvs "sys" with
    | none => left; simp [show_weather, h1]
    | some sys0 =>
      cases h2 : getObjD kvs "main" with
      | none => left; simp [show_weather, h1, h2]
      | some main0 =>
        cases h3 : getObjD kvs "wind" with
        | none => left; simp [show_weather, h1, h2, h3]
        | some wind0 =>
          right
          by_cases t1 : (timeLine "Sunrise: " (List.lookup "sunrise" sys0)).2 = true
          · exact ⟨kvs, sys0, main0, wind0, [], rfl, h1, h2, h3,
              by simp [show_weather, h1, h2, h3, t1]⟩
          · by_cases t2 : (timeLine "Sunset:  " (List.lookup "sunset" sys0)).2 = true
            · exact ⟨kvs, sys0, main0, wind0,
                (timeLine "Sunrise: " (List.lookup "sunrise" sys0)).1, rfl, h1, h2, h3,
                by simp [show_weather, h1, h2, h3, t1, t2]⟩
            · exact ⟨kvs, sys0, main0, wind0,
                (timeLine "Sunrise: " (List.lookup "sunrise" sys0)).1
                ++ (timeLine "Sunset:  " (List.lookup "sunset" sys0)).1
                ++ ["--------------------------------\n"], rfl, h1, h2, h3,
                by simp [show_weather, h1, h2, h3, t1, t2]⟩
  | null => left; simp [show_weather]
  | bool b => left; simp [show_weather]
  | int n => left; simp [show_weather]
  | str s => left; simp [show_weather]
  | arr xs => left; simp [show_weather]

theorem mainLoop_exit (net : String → String → HttpOutcome) (cityLine : String)
    (rest : List String) (h : pyLower (pyStrip cityLine) = "exit") :
    mainLoop net (cityLine :: rest) = (["Goodbye!"], [], false) := by
  simp [mainLoop, h]

theorem mainLoop_fetch_fail (net : String → String → HttpOutcome)
    (cityLine : String) (rest0 gouts : List String) (u : String)
    (rem : List String) (fouts : List String)
    (h1 : pyLower (pyStrip cityLine) ≠ "exit")
    (hg : get_units rest0 = (gouts, some u, rem))
    (hf : fetch_weather (net (pyStrip cityLine) u) = (fouts, none)) :
    mainLoop net (cityLine :: rest0) =
      (gouts ++ fouts ++ ["❌ No data returned. Try again.\n"] ++ (mainLoop net rem).1,
       (pyStrip cityLine, u) :: (mainLoop net rem).2.1, (mainLoop net rem).2.2) := by
  simp [mainLoop, h1, hg, hf]

theorem mainLoop_success_obj (net : String → String → HttpOutcome)
    (cityLine : String) (rest0 gouts : List String) (u : String)
    (rem : List String) (kvs : List (String × Json))
    (h1 : pyLower (pyStrip cityLine) ≠ "exit")
    (hg : get_units rest0 = (gouts, some u, rem))
    (hf : net (pyStrip cityLine) u = .success (.obj kvs)) :
    mainLoop net (cityLine :: rest0) =
      if (pyStrOpt (List.lookup "cod" kvs) != "200") = true then
        (gouts ++
          ["❌ Error: " ++ pyStr (dictGetD kvs "message" (.str "Unknown error")) ++ ".\n"]
          ++ (mainLoop net rem).1,
         (pyStrip cityLine, u) :: (mainLoop net rem).2.1, (mainLoop net rem).2.2)
      else
        if (show_weather (.obj kvs) u).2 = true then
          (gouts ++ (show_weather (.obj kvs) u).1, [(pyStrip cityLine, u)], true)
        else
          (gouts ++ (show_weather (.obj kvs) u).1 ++ (mainLoop net rem).1,
           (pyStrip cityLine, u) :: (mainLoop net rem).2.1, (mainLoop net rem).2.2) := by
  by_cases hc : (pyStrOpt (List.lookup "cod" kvs) != "200") = true
  · simp [mainLoop, h1, hg, hf, fetch_weather, hc]
  · by_cases hw : (show_weather (.obj kvs) u).2 = true
    · simp [mainLoop, h1, hg, hf, fetch_weather, hc, hw]
    · simp [mainLoop, h1, hg, hf, fetch_weather, hc, hw]

/-! ### Claims -/

/-- The failure class of an HTTP outcome (`none` for success): the four
classes the specification distinguishes. -/
def failureClass : HttpOutcome → Option Nat
  | .success _ => none
  | .httpError _ => some 0
  | .connectionError => some 1
  | .timeout => some 2
  | .otherError _ => some 3

/-- C5: with the reference timezone fixed to UTC, `format_unix_time` applied
to the UNIX timestamp 0 returns "12:00 AM". -/
theorem c5_format_unix_time_epoch : format_unix_time 0 = "12:00 AM" := by
  simp [format_unix_time, pad2, natStr]
  decide

/-- C9: when the API-key credential is absent from the environment at
startup, `main` prints only the user-facing error message, raises nothing,
enters no loop iteration, and performs no fetch. -/
theorem c9_missing_key (net : String → String → HttpOutcome)
    (inputs : List String) :
    mainApp none net inputs =
      (["❌ ERROR: API key not found. Add it to your .env file."], [], false) := by
  simp [mainApp]

/-- C8: an input at the city prompt that strips and lowercases to "exit"
terminates the loop with the farewell message, performing no network call
and consuming no further input. -/
theorem c8_exit_terminates (net : String → String → HttpOutcome)
    (cityLine : String) (rest : List String)
    (h : pyLower (pyStrip cityLine) = "exit") :
    mainLoop net (cityLine :: rest) = (["Goodbye!"], [], false) :=
  mainLoop_exit net cityLine rest h

theorem c8_witness :
    pyLower (pyStrip "EXIT") = "exit" ∧
    mainLoop (fun _ _ => HttpOutcome.timeout) ["EXIT", "Paris", "c"] =
      (["Goodbye!"], [], false) :=
  ⟨by decide, c8_exit_terminates (fun _ _ => HttpOutcome.timeout) "EXIT" ["Paris", "c"] (by decide)⟩

/-- C1 counterexample: connection failure and timeout both return `none`
from `fetch_weather`, so the returned value does not let the caller tell
the failure classes apart. -/
theorem c1_counterexample :
    (fetch_weather .connectionError).2 = (fetch_weather .timeout).2 ∧
    (fetch_weather .connectionError).2 = none := ⟨rfl, rfl⟩

/-- C1 (amended): the result of `fetch_weather` is `some` parsed body
exactly on success and the single value `none` on every failure class; the
four classes are told apart not by the result but by the diagnostic line
`fetch_weather` itself prints, which determines the class. -/
theorem c1_fetch_weather_result :
    (∀ o : HttpOutcome, ∀ j : Json, (fetch_weather o).2 = some j ↔ o = .success j) ∧
    (∀ o : HttpOutcome, failureClass o ≠ none → (fetch_weather o).2 = none) ∧
    (∀ o o' : HttpOutcome, failureClass o ≠ none → failureClass o' ≠ none →
      (fetch_weather o).1.head? = (fetch_weather o').1.head? →
      failureClass o = failureClass o') := by
  refine ⟨?_, ?_, ?_⟩
  · intro o j
    cases o <;> simp [fetch_weather]
  · intro o ho
    cases o <;> simp [fetch_weather, failureClass] at ho ⊢
  · intro o o' ho ho' h
    cases o with
    | success b => simp [failureClass] at ho
    | httpError e =>
      cases o' with
      | success b => simp [failureClass] at ho'
      | httpError e2 => rfl
      | connectionError =>
        exfalso
        simp [fetch_weather] at h
        exact append_ne_const "\u274c HTTP Error: " e
          "\u274c Network connection error. Check your internet." 2
          (by decide) (by decide) (by decide) h
      | timeout =>
        exfalso
        simp [fetch_weather] at h
        exact append_ne_const "\u274c HTTP Error: " e
          "\u274c Request timed out." 2 (by decide) (by decide) (by decide) h
      | otherError e2 =>
        exfalso
        simp [fetch_weather] at h
        exact append_ne_append "\u274c HTTP Error: " e
          "\u274c General request error: " e2 2 (by decide) (by decide) (by decide) h
    | connectionError =>
      cases o' with
      | success b => simp [failureClass] at ho'
      | connectionError => rfl
      | httpError e2 =>
        exfalso
        simp [fetch_weather] at h
        exact append_ne_const "\u274c HTTP Error: " e2
          "\u274c Network connection error. Check your internet." 2
          (by decide) (by decide) (by decide) h.symm
      | timeout =>
        exfalso
        simp [fetch_weather] at h
      | otherError e2 =>
        exfalso
        simp [fetch_weather] at h
        exact append_ne_const "\u274c General request error: " e2
          "\u274c Network connection error. Check your internet." 2
          (by decide) (by decide) (by decide) h.symm
    | timeout =>
      cases o' with
      | success b => simp [failureClass] at ho'
      | timeout => rfl
      | httpError e2 =>
        exfalso
        simp [fetch_weather] at h
        exact append_ne_const "\u274c HTTP Error: " e2
          "\u274c Request timed out." 2 (by decide) (by decide) (by decide) h.symm
      | connectionError =>
        exfalso
        simp [fetch_weather] at h
      | otherError e2 =>
        exfalso
        simp [fetch_weather] at h
        exact append_ne_const "\u274c General request error: " e2
          "\u274c Request timed out." 2 (by decide) (by decide) (by decide) h.symm
    | otherError e =>
      cases o' with
      | success b => simp [failureClass] at ho'
      | otherError e2 => rfl
      | httpError e2 =>
        exfalso
        simp [fetch_weather] at h
        exact append_ne_append "\u274c HTTP Error: " e2
          "\u274c General request error: " e 2 (by decide) (by decide) (by decide) h.symm
      | connectionError =>
        exfalso
        simp [fetch_weather] at h
        exact append_ne_const "\u274c General request error: " e
          "\u274c Network connection error. Check your internet." 2
          (by decide) (by decide) (by decide) h
      | timeout =>
        exfalso
        simp [fetch_weather] at h
        exact append_ne_const "\u274c General request error: " e
          "\u274c Request timed out." 2 (by decide) (by decide) (by decide) h

theorem c1_witness :
    failureClass .timeout ≠ none ∧ (fetch_weather .timeout).2 = none :=
  ⟨by decide, c1_fetch_weather_result.2.1 .timeout (by decide)⟩

/-- C7: unit-prompt inputs stripping and lowercasing to "c" return
"metric", to "f" return "imperial"; any other input prints the error line
and re-prompts on the remaining input without consuming anything else; and
every value `get_units` ever returns is one of the two unit strings. -/
theorem c7_get_units :
    (∀ x rest, pyLower (pyStrip x) = "c" →
        get_units (x :: rest) = ([], some "metric", rest)) ∧
    (∀ x rest, pyLower (pyStrip x) = "f" →
        get_units (x :: rest) = ([], some "imperial", rest)) ∧
    (∀ x rest, pyLower (pyStrip x) ≠ "c" → pyLower (pyStrip x) ≠ "f" →
        get_units (x :: rest) =
          ("Invalid option. Please enter C or F." :: (get_units rest).1,
           (get_units rest).2.1, (get_units rest).2.2)) ∧
    (∀ l u, (get_units l).2.1 = some u → u = "metric" ∨ u = "imperial") := by
  refine ⟨?_, ?_, ?_, ?_⟩
  · intro x rest h
    simp [get_units, h]
  · intro x rest h
    simp [get_units, h]
  · intro x rest h1 h2
    simp [get_units, h1, h2]
  · intro l u h
    induction l with
    | nil => simp [get_units] at h
    | cons x rest ih =>
      by_cases h1 : pyLower (pyStrip x) == "c"
      · simp [get_units, h1] at h
        left
        exact h.symm
      · by_cases h2 : pyLower (pyStrip x) == "f"
        · simp [get_units, h1, h2] at h
          right
          exact h.symm
        · simp [get_units, h1, h2] at h
          exact ih h

theorem c7_witness :
    get_units [" C "] = ([], some "metric", []) ∧
    get_units ["x", "f"] =
      (["Invalid option. Please enter C or F."], some "imperial", []) ∧
    ("metric" = "metric" ∨ "metric" = "imperial") := by
  refine ⟨c7_get_units.1 " C " [] (by decide), ?_, ?_⟩
  · have h := c7_get_units.2.2.1 "x" ["f"] (by decide) (by decide)
    rw [h]
    decide
  · exact c7_get_units.2.2.2 [" C "] "metric" (by decide)

/-- The line at index 2 of the presenter output, when it exists, is the
temperature line, ending in the unit label chosen from the units value. -/
theorem show_weather_line2 (data : Json) (units : String) :
    ∀ l, (show_weather data units).1[2]? = some l →
      ∃ v, l = "Temperature: " ++ v ++ (if units == "metric" then "°C" else "°F") := by
  intro l hl
  rcases show_weather_shape data units with h | ⟨kvs, sys0, main0, wind0, tail, _, _, _, _, h⟩
  · rw [h] at hl
    simp at hl
  · rw [h] at hl
    rw [List.getElem?_append_left (by simp)] at hl
    simp only [List.getElem?_cons_succ, List.getElem?_cons_zero] at hl
    exact ⟨pyStr (dictGetD main0 "temp" (.str "No data")), (Option.some.injEq _ _ ▸ hl).symm⟩

/-- The line at index 4 of the presenter output, when it exists, is the
wind-speed line, ending in the fixed label " m/s". -/
theorem show_weather_line4 (data : Json) (units : String) :
    ∀ l, (show_weather data units).1[4]? = some l →
      ∃ v, l = "Wind Speed: " ++ v ++ " m/s" := by
  intro l hl
  rcases show_weather_shape data units with h | ⟨kvs, sys0, main0, wind0, tail, _, _, _, _, h⟩
  · rw [h] at hl
    simp at hl
  · rw [h] at hl
    rw [List.getElem?_append_left (by simp)] at hl
    simp only [List.getElem?_cons_succ, List.getElem?_cons_zero] at hl
    exact ⟨pyStr (dictGetD wind0 "speed" (.str "No data")), (Option.some.injEq _ _ ▸ hl).symm⟩

/-- C6: whatever the response contains, the temperature line printed by
`show_weather` ends in "°C" when the units value is "metric" and in "°F"
when it is "imperial". -/
theorem c6_temperature_unit (data : Json) :
    (∀ l, (show_weather data "metric").1[2]? = some l →
        ∃ v, l = "Temperature: " ++ v ++ "°C") ∧
    (∀ l, (show_weather data "imperial").1[2]? = some l →
        ∃ v, l = "Temperature: " ++ v ++ "°F") := by
  constructor
  · intro l hl
    obtain ⟨v, hv⟩ := show_weather_line2 data "metric" l hl
    exact ⟨v, by rw [hv]; rw [if_pos (by decide)]⟩
  · intro l hl
    obtain ⟨v, hv⟩ := show_weather_line2 data "imperial" l hl
    exact ⟨v, by rw [hv]; rw [if_neg (by decide)]⟩

theorem c6_witness :
    (show_weather (Json.obj []) "metric").1[2]? = some "Temperature: No data°C" ∧
    (∃ v, "Temperature: No data°C" = "Temperature: " ++ v ++ "°C") :=
  ⟨by decide,
   (c6_temperature_unit (Json.obj [])).1 "Temperature: No data°C" (by decide)⟩

/-- C10: the wind-speed line always carries the fixed suffix " m/s",
whatever the units value and also for the "No data" fallback. -/
theorem c10_wind_suffix (data : Json) (units : String) :
    ∀ l, (show_weather data units).1[4]? = some l →
      ∃ v, l = "Wind Speed: " ++ v ++ " m/s" :=
  show_weather_line4 data units

theorem c10_witness :
    (show_weather (Json.obj []) "imperial").1[4]? = some "Wind Speed: No data m/s" ∧
    (∃ v, "Wind Speed: No data m/s" = "Wind Speed: " ++ v ++ " m/s") :=
  ⟨by decide,
   c10_wind_suffix (Json.obj []) "imperial" "Wind Speed: No data m/s" (by decide)⟩

theorem append_congr_left (a b c : String) (h : a = b) : a ++ c = b ++ c := by
  rw [h]

/-- C4: on well-formed documents (every field optional; present fields of
the kinds the API uses) the presenter never raises, and missing fields
render their documented fallbacks: name "Unknown city", country "N/A",
temperature, humidity and wind speed the literal rendered "No data". -/
theorem c4_defaults (data : Json) (units : String)
    (hwf : wfResponse data = true) :
    (show_weather data units).2 = false ∧
    ∀ kvs, data = .obj kvs →
      ((List.lookup "name" kvs = none →
          (show_weather data units).1[1]? =
            some ("Location: Unknown city, "
              ++ pyStr (dictGetD (effObj kvs "sys") "country" (.str "N/A")))) ∧
       (List.lookup "country" (effObj kvs "sys") = none →
          (show_weather data units).1[1]? =
            some ("Location: " ++ pyStr (dictGetD kvs "name" (.str "Unknown city"))
              ++ ", N/A")) ∧
       (List.lookup "temp" (effObj kvs "main") = none →
          (show_weather data units).1[2]? =
            some ("Temperature: No data"
              ++ (if units == "metric" then "°C" else "°F"))) ∧
       (List.lookup "humidity" (effObj kvs "main") = none →
          (show_weather data units).1[3]? = some "Humidity: No data%") ∧
       (List.lookup "speed" (effObj kvs "wind") = none →
          (show_weather data units).1[4]? = some "Wind Speed: No data m/s")) := by
  cases data with
  | obj kvs =>
    have hm := show_weather_wf kvs units hwf
    constructor
    · rw [hm]
    · intro kvs' heq
      have hk : kvs = kvs' := by
        injection heq
      subst hk
      refine ⟨?_, ?_, ?_, ?_, ?_⟩
      · intro h
        rw [hm]
        simp [dictGetD, h, pyStr]
      · intro h
        rw [hm]
        simp [dictGetD, h, pyStr]
        rw [String.append_assoc]
        congr 1
      · intro h
        rw [hm]
        simp [dictGetD, h, pyStr]
      · intro h
        rw [hm]
        simp [dictGetD, h, pyStr]
      · intro h
        rw [hm]
        simp [dictGetD, h, pyStr]
  | null => simp [wfResponse] at hwf
  | bool b => simp [wfResponse] at hwf
  | int n => simp [wfResponse] at hwf
  | str s => simp [wfResponse] at hwf
  | arr xs => simp [wfResponse] at hwf

theorem c4_witness :
    wfResponse (Json.obj []) = true ∧
    (show_weather (Json.obj []) "imperial").2 = false ∧
    (show_weather (Json.obj []) "imperial").1[3]? = some "Humidity: No data%" := by
  have h := c4_defaults (Json.obj []) "imperial" (by decide)
  exact ⟨by decide, h.1, (h.2 [] rfl).2.2.2.1 rfl⟩

/-- The response document of the C2 counterexample: the sunrise field is
present with the legitimate UNIX timestamp 0 (midnight 1970-01-01 UTC). -/
def sunriseZeroDoc : Json := Json.obj [("sys", Json.obj [("sunrise", Json.int 0)])]

/-- C2 counterexample: `sunrise` is present (value 0), yet `show_weather`
prints no sunrise line at all — Python truthiness drops a present zero
timestamp, contradicting the claim that presence alone prints the line. -/
theorem c2_counterexample :
    List.lookup "sunrise" (effObj [("sys", Json.obj [("sunrise", Json.int 0)])] "sys")
      = some (Json.int 0) ∧
    show_weather sunriseZeroDoc "metric" =
      (["\n------ WEATHER INFORMATION ------",
        "Location: Unknown city, N/A",
        "Temperature: No data°C",
        "Humidity: No data%",
        "Wind Speed: No data m/s",
        "--------------------------------\n"], false) ∧
    ((show_weather sunriseZeroDoc "metric").1.all
      (fun l => l.data[0]? != some 'S')) = true :=
  ⟨rfl, by decide, by decide⟩

/-- C2 (amended): on well-formed documents, the sunrise (resp. sunset) line
is printed, formatted by `format_unix_time` (12-hour clock with AM/PM),
exactly when the field is present AND truthy — a present value of 0 is
falsy in Python and the line is omitted, just as when the field is absent;
the omission leaves no placeholder line. -/
theorem c2_sun_lines (kvs : List (String × Json)) (units : String)
    (hwf : wfResponse (.obj kvs) = true) :
    (∀ t : Int, List.lookup "sunrise" (effObj kvs "sys") = some (.int t) → t ≠ 0 →
        ("Sunrise: " ++ format_unix_time t) ∈ (show_weather (.obj kvs) units).1) ∧
    (pyTruthyOpt (List.lookup "sunrise" (effObj kvs "sys")) = false →
        ∀ s : String, ("Sunrise: " ++ s) ∉ (show_weather (.obj kvs) units).1) ∧
    (∀ t : Int, List.lookup "sunset" (effObj kvs "sys") = some (.int t) → t ≠ 0 →
        ("Sunset:  " ++ format_unix_time t) ∈ (show_weather (.obj kvs) units).1) ∧
    (pyTruthyOpt (List.lookup "sunset" (effObj kvs "sys")) = false →
        ∀ s : String, ("Sunset:  " ++ s) ∉ (show_weather (.obj kvs) units).1) ∧
    (∀ t : Int, (∃ v, format_unix_time t = v ++ " AM") ∨
        (∃ v, format_unix_time t = v ++ " PM")) := by
  have hm := show_weather_wf kvs units hwf
  refine ⟨?_, ?_, ?_, ?_, ?_⟩
  · intro t hlook htne
    rw [hm]
    simp only [hlook, timeLine_int _ t htne]
    simp [List.mem_append]
  · intro hfalsy s hmem
    rw [hm] at hmem
    rw [timeLine_falsy _ _ hfalsy] at hmem
    rcases timeLine_fst_cases "Sunset:  " (List.lookup "sunset" (effObj kvs "sys"))
      with hother | ⟨t, hother⟩ <;> rw [hother] at hmem <;> simp at hmem
    · rcases hmem with h | h | h | h | h | h
      · exact absurd h (ne_of_getI _ _ 0 'S' '\n' (getI_append "Sunrise: " s 0 'S' rfl) rfl (by decide))
      · exact absurd h (ne_of_getI _ _ 0 'S' 'L' (getI_append "Sunrise: " s 0 'S' rfl) (getI_append _ _ 0 'L' (getI_append _ _ 0 'L' (getI_append "Location: " _ 0 'L' rfl))) (by decide))
      · exact absurd h (ne_of_getI _ _ 0 'S' 'T' (getI_append "Sunrise: " s 0 'S' rfl) (getI_append _ _ 0 'T' (getI_append "Temperature: " _ 0 'T' rfl)) (by decide))
      · exact absurd h (ne_of_getI _ _ 0 'S' 'H' (getI_append "Sunrise: " s 0 'S' rfl) (getI_append _ _ 0 'H' (getI_append "Humidity: " _ 0 'H' rfl)) (by decide))
      · exact absurd h (ne_of_getI _ _ 0 'S' 'W' (getI_append "Sunrise: " s 0 'S' rfl) (getI_append _ _ 0 'W' (getI_append "Wind Speed: " _ 0 'W' rfl)) (by decide))
      · exact absurd h (ne_of_getI _ _ 0 'S' '-' (getI_append "Sunrise: " s 0 'S' rfl) rfl (by decide))
    · rcases hmem with h | h | h | h | h | h | h
      · exact absurd h (ne_of_getI _ _ 0 'S' '\n' (getI_append "Sunrise: " s 0 'S' rfl) rfl (by decide))
      · exact absurd h (ne_of_getI _ _ 0 'S' 'L' (getI_append "Sunrise: " s 0 'S' rfl) (getI_append _ _ 0 'L' (getI_append _ _ 0 'L' (getI_append "Location: " _ 0 'L' rfl))) (by decide))
      · exact absurd h (ne_of_getI _ _ 0 'S' 'T' (getI_append "Sunrise: " s 0 'S' rfl) (getI_append _ _ 0 'T' (getI_append "Temperature: " _ 0 'T' rfl)) (by decide))
      · exact absurd h (ne_of_getI _ _ 0 'S' 'H' (getI_append "Sunrise: " s 0 'S' rfl) (getI_append _ _ 0 'H' (getI_append "Humidity: " _ 0 'H' rfl)) (by decide))
      · exact absurd h (ne_of_getI _ _ 0 'S' 'W' (getI_append "Sunrise: " s 0 'S' rfl) (getI_append _ _ 0 'W' (getI_append "Wind Speed: " _ 0 'W' rfl)) (by decide))
      · exact absurd h (ne_of_getI _ _ 3 'r' 's' (getI_append "Sunrise: " s 3 'r' rfl) (getI_append "Sunset:  " _ 3 's' rfl) (by decide))
      · exact absurd h (ne_of_getI _ _ 0 'S' '-' (getI_append "Sunrise: " s 0 'S' rfl) rfl (by decide))
  · intro t hlook htne
    rw [hm]
    simp only [hlook, timeLine_int _ t htne]
    simp [List.mem_append]
  · intro hfalsy s hmem
    rw [hm] at hmem
    rw [timeLine_falsy _ _ hfalsy] at hmem
    rcases timeLine_fst_cases "Sunrise: " (List.lookup "sunrise" (effObj kvs "sys"))
      with hother | ⟨t, hother⟩ <;> rw [hother] at hmem <;> simp at hmem
    · rcases hmem with h | h | h | h | h | h
      · exact absurd h (ne_of_getI _ _ 0 'S' '\n' (getI_append "Sunset:  " s 0 'S' rfl) rfl (by decide))
      · exact absurd h (ne_of_getI _ _ 0 'S' 'L' (getI_append "Sunset:  " s 0 'S' rfl) (getI_append _ _ 0 'L' (getI_append _ _ 0 'L' (getI_append "Location: " _ 0 'L' rfl))) (by decide))
      · exact absurd h (ne_of_getI _ _ 0 'S' 'T' (getI_append "Sunset:  " s 0 'S' rfl) (getI_append _ _ 0 'T' (getI_append "Temperature: " _ 0 'T' rfl)) (by decide))
      · exact absurd h (ne_of_getI _ _ 0 'S' 'H' (getI_append "Sunset:  " s 0 'S' rfl) (getI_append _ _ 0 'H' (getI_append "Humidity: " _ 0 'H' rfl)) (by decide))
      · exact absurd h (ne_of_getI _ _ 0 'S' 'W' (getI_append "Sunset:  " s 0 'S' rfl) (getI_append _ _ 0 'W' (getI_append "Wind Speed: " _ 0 'W' rfl)) (by decide))
      · exact absurd h (ne_of_getI _ _ 0 'S' '-' (getI_append "Sunset:  " s 0 'S' rfl) rfl (by decide))
    · rcases hmem with h | h | h | h | h | h | h
      · exact absurd h (ne_of_getI _ _ 0 'S' '\n' (getI_append "Sunset:  " s 0 'S' rfl) rfl (by decide))
      · exact absurd h (ne_of_getI _ _ 0 'S' 'L' (getI_append "Sunset:  " s 0 'S' rfl) (getI_append _ _ 0 'L' (getI_append _ _ 0 'L' (getI_append "Location: " _ 0 'L' rfl))) (by decide))
      · exact absurd h (ne_of_getI _ _ 0 'S' 'T' (getI_append "Sunset:  " s 0 'S' rfl) (getI_append _ _ 0 'T' (getI_append "Temperature: " _ 0 'T' rfl)) (by decide))
      · exact absurd h (ne_of_getI _ _ 0 'S' 'H' (getI_append "Sunset:  " s 0 'S' rfl) (getI_append _ _ 0 'H' (getI_append "Humidity: " _ 0 'H' rfl)) (by decide))
      · exact absurd h (ne_of_getI _ _ 0 'S' 'W' (getI_append "Sunset:  " s 0 'S' rfl) (getI_append _ _ 0 'W' (getI_append "Wind Speed: " _ 0 'W' rfl)) (by decide))
      · exact absurd h (ne_of_getI _ _ 3 's' 'r' (getI_append "Sunset:  " s 3 's' rfl) (getI_append "Sunrise: " _ 3 'r' rfl) (by decide))
      · exact absurd h (ne_of_getI _ _ 0 'S' '-' (getI_append "Sunset:  " s 0 'S' rfl) rfl (by decide))
  · intro t
    simp only [format_unix_time]
    by_cases hh : (t % 86400).toNat / 3600 < 12
    · left
      refine ⟨pad2 (if (t % 86400).toNat / 3600 % 12 = 0 then 12
        else (t % 86400).toNat / 3600 % 12) ++ ":" ++ pad2 ((t % 86400).toNat % 3600 / 60), ?_⟩
      rw [if_pos hh, String.append_assoc]
      congr 1
    · right
      refine ⟨pad2 (if (t % 86400).toNat / 3600 % 12 = 0 then 12
        else (t % 86400).toNat / 3600 % 12) ++ ":" ++ pad2 ((t % 86400).toNat % 3600 / 60), ?_⟩
      rw [if_neg hh, String.append_assoc]
      congr 1

theorem c2_witness :
    wfResponse (Json.obj
      [("sys", Json.obj [("sunrise", Json.int 100), ("sunset", Json.int 0)])]) = true ∧
    ("Sunrise: " ++ format_unix_time 100) ∈
      (show_weather (Json.obj
        [("sys", Json.obj [("sunrise", Json.int 100), ("sunset", Json.int 0)])]) "metric").1 ∧
    ("Sunset:  " ++ "x") ∉
      (show_weather (Json.obj
        [("sys", Json.obj [("sunrise", Json.int 100), ("sunset", Json.int 0)])]) "metric").1 := by
  have h := c2_sun_lines
    [("sys", Json.obj [("sunrise", Json.int 100), ("sunset", Json.int 0)])] "metric" (by decide)
  exact ⟨by decide, h.1 100 rfl (by decide), h.2.2.2.1 rfl "x"⟩

/-- C3: a loop iteration treats a fetched object document as success exactly
when its cod field string-converts to "200", i.e. exactly when cod is the
integer 200 or the string "200"; any other document prints its message
field, or "Unknown error" when absent, and the loop returns to the city
prompt without rendering any weather line. -/
theorem c3_cod_check (net : String → String → HttpOutcome)
    (cityLine : String) (rest0 gouts : List String) (u : String)
    (rem : List String) (kvs : List (String × Json))
    (h1 : pyLower (pyStrip cityLine) ≠ "exit")
    (hg : get_units rest0 = (gouts, some u, rem))
    (hf : net (pyStrip cityLine) u = .success (.obj kvs)) :
    ((pyStrOpt (List.lookup "cod" kvs) != "200") = false ↔
      (List.lookup "cod" kvs = some (.int 200) ∨
       List.lookup "cod" kvs = some (.str "200"))) ∧
    ((pyStrOpt (List.lookup "cod" kvs) != "200") = true →
      mainLoop net (cityLine :: rest0) =
        (gouts ++
          ["❌ Error: " ++ pyStr (dictGetD kvs "message" (.str "Unknown error")) ++ ".\n"]
          ++ (mainLoop net rem).1,
         (pyStrip cityLine, u) :: (mainLoop net rem).2.1,
         (mainLoop net rem).2.2)) ∧
    ((pyStrOpt (List.lookup "cod" kvs) != "200") = false →
      (show_weather (.obj kvs) u).2 = false →
      mainLoop net (cityLine :: rest0) =
        (gouts ++ (show_weather (.obj kvs) u).1 ++ (mainLoop net rem).1,
         (pyStrip cityLine, u) :: (mainLoop net rem).2.1,
         (mainLoop net rem).2.2)) := by
  refine ⟨?_, ?_, ?_⟩
  · rw [bne_eq_false_iff_eq]
    cases hc : List.lookup "cod" kvs with
    | none =>
      simp [pyStrOpt]
    | some j =>
      simp only [pyStrOpt, Option.some.injEq]
      rw [pyStr_eq_200]
  · intro hcod
    rw [mainLoop_success_obj net cityLine rest0 gouts u rem kvs h1 hg hf]
    rw [if_pos hcod]
  · intro hcod hw
    rw [mainLoop_success_obj net cityLine rest0 gouts u rem kvs h1 hg hf]
    rw [if_neg (by simp [hcod]), if_neg (by simp [hw])]

theorem c3_witness :
    mainLoop (fun _ _ => HttpOutcome.success
        (Json.obj [("cod", Json.str "404"), ("message", Json.str "city not found")]))
      ["Paris", "c", "exit"] =
      (["❌ Error: city not found.\n", "Goodbye!"], [("Paris", "metric")], false) := by
  have h := (c3_cod_check
    (fun _ _ => HttpOutcome.success
      (Json.obj [("cod", Json.str "404"), ("message", Json.str "city not found")]))
    "Paris" ["c", "exit"] [] "metric" ["exit"]
    [("cod", Json.str "404"), ("message", Json.str "city not found")]
    (by decide) rfl rfl).2.1 (by decide)
  rw [h]
  rw [mainLoop_exit _ "exit" [] (by decide)]
  decide
